import Mathlib

/-!
Verification of the FitTrack backend (src/main.py, src/schemas.py).

Numbers: Python ints are modelled as `Int`, Python floats as `ℚ`.
Timestamps (`datetime`) are modelled as `Int` instants; "current UTC time"
is passed to handlers as an explicit `now` parameter.

Storage: `database.py` (providing `db`, `create_document`, `get_documents`)
is part of the repository but absent from the sources; its behaviour is
modelled from the spec (see the doc comments marked "Modelled from the
spec"). The storage state is a list of `(identifier, document)` pairs per
collection with a storage-assigned `Nat` identifier counter.
-/

/-- Rounding of a rational to the nearest integer, ties to even —
the tie-breaking rule of Python `round`. -/
def roundHalfEven (q : ℚ) : Int :=
  let f : Int := ⌊q⌋
  let r : ℚ := q - (f : ℚ)
  if r < 1/2 then f
  else if (1:ℚ)/2 < r then f + 1
  else if f % 2 = 0 then f else f + 1

/-- Python `round(x, 2)`: round to 2 decimal places, ties to even. -/
def round2 (q : ℚ) : ℚ :=
  (roundHalfEven (q * 100) : ℚ) / 100

/-! ## Domain records (src/schemas.py) -/

/-- `class User(BaseModel)` from src/schemas.py. -/
structure User where
  username : String
  full_name : Option String := none
  bio : Option String := none
  avatar_url : Option String := none
  city : Option String := none
  level : Option String := some "beginner"
  goals : List String := []
deriving DecidableEq

/-- `class ExerciseSet(BaseModel)` from src/schemas.py.
Field values are carried unconstrained; the pydantic range constraints
(`ge`/`le`) are expressed by `validSet` below. -/
structure ExerciseSet where
  reps : Int
  weight : ℚ := 0
  rest_sec : Option Int := some 90
  rpe : Option ℚ := none
deriving DecidableEq

/-- `class WorkoutExercise(BaseModel)` from src/schemas.py. -/
structure WorkoutExercise where
  name : String
  sets : List ExerciseSet := []
deriving DecidableEq

/-- `class Workout(BaseModel)` from src/schemas.py. -/
structure Workout where
  user_id : String
  notes : Option String := none
  duration_min : Option Int := none
  fatigue : Option Int := none
  exercises : List WorkoutExercise := []
  total_volume : Option ℚ := none
  total_sets : Option Int := none
  total_reps : Option Int := none
  date : Option Int := none
  likes : Option Int := some 0
  media_url : Option String := none
deriving DecidableEq

/-- `class Challenge(BaseModel)` from src/schemas.py. -/
structure Challenge where
  title : String
  description : Option String := none
  metric : String
  target : ℚ
  period : String := "monthly"
  starts_at : Option Int := none
  ends_at : Option Int := none
deriving DecidableEq

/-! ## Metrics computation (src/main.py, compute_workout_metrics) -/

/-- Loop body of `compute_workout_metrics`: the accumulator is
`(total_volume, total_sets, total_reps)`; `(s.weight or 0)` is Python
truthiness on a float, i.e. `0` when the weight is zero. -/
def metricsStep (a : ℚ × Int × Int) (s : ExerciseSet) : ℚ × Int × Int :=
  (a.1 + (s.reps : ℚ) * (if s.weight = 0 then 0 else s.weight),
   a.2.1 + 1, a.2.2 + s.reps)

/-- `compute_workout_metrics` from src/main.py.  `now` is the current UTC
timestamp used to default a missing date. -/
def compute_workout_metrics (now : Int) (workout : Workout) : Workout :=
  let acc := workout.exercises.foldl
    (fun a ex => ex.sets.foldl metricsStep a) ((0 : ℚ), (0 : Int), (0 : Int))
  { workout with
    total_volume := some (round2 acc.1)
    total_sets := some acc.2.1
    total_reps := some acc.2.2
    date := some (workout.date.getD now)
    likes := some (workout.likes.getD 0) }

/-! ## Declarative descriptions of the metrics, used to state the claims -/

/-- All sets of a workout, across all exercises, in order. -/
def setsOf (w : Workout) : List ExerciseSet :=
  w.exercises.flatMap (fun ex => ex.sets)

/-- Declarative volume: sum over the sets of `reps * weight`. -/
def volumeSum (l : List ExerciseSet) : ℚ :=
  (l.map (fun s => (s.reps : ℚ) * s.weight)).sum

/-- Declarative rep total: sum over the sets of `reps`. -/
def repsSum (l : List ExerciseSet) : Int :=
  (l.map (fun s => s.reps)).sum

/-! ## Storage model -/

/-- Modelled from the spec: the document store (`database.py` is absent
from the sources).  Each collection holds `(identifier, document)` pairs in
insertion order; identifiers are storage-assigned from the counter
`nextId` ("every record is created via a single insert call returning a
storage-assigned identifier"). -/
structure DB where
  users : List (Nat × User) := []
  workouts : List (Nat × Workout) := []
  challenges : List (Nat × Challenge) := []
  nextId : Nat := 0
deriving DecidableEq

/-- The empty store. -/
def emptyDB : DB := {}

/-- An HTTP error: `HTTPException(status_code, detail)` or a pydantic
validation rejection (status 422). -/
structure HErr where
  status : Nat
  detail : String
deriving DecidableEq

/-- Modelled from the spec: rendering a storage-assigned opaque identifier
as a string (`str(u["_id"])` in the handlers). -/
def idString (oid : Nat) : String := toString oid

/-- The numeric value of a decimal digit character, `none` otherwise. -/
def charDigit? (c : Char) : Option Nat :=
  if c = '0' then some 0 else if c = '1' then some 1
  else if c = '2' then some 2 else if c = '3' then some 3
  else if c = '4' then some 4 else if c = '5' then some 5
  else if c = '6' then some 6 else if c = '7' then some 7
  else if c = '8' then some 8 else if c = '9' then some 9
  else none

/-- Reads a non-empty digit sequence as a decimal number. -/
def parseIdAux : List Char → Nat → Option Nat
  | [], acc => some acc
  | c :: cs, acc =>
      match charDigit? c with
      | some d => parseIdAux cs (acc * 10 + d)
      | none => none

/-- Modelled from the spec: parsing the identifier string of a like
request into a storage identifier (`ObjectId(workout_id)` /
`$toObjectId`); spec §9 mandates that a malformed identifier matches no
record.  Valid identifiers are the decimal renderings produced by
`idString`. -/
def parseId (s : String) : Option Nat :=
  match s.data with
  | [] => none
  | c :: cs => parseIdAux (c :: cs) 0

/-! ## Validation (pydantic field constraints of src/schemas.py) -/

/-- The `ge`/`le` constraints on `ExerciseSet`: `reps ≥ 1`, `weight ≥ 0`,
`rest_sec ≥ 0` when present, `rpe ∈ [1,10]` when present. -/
def validSet (s : ExerciseSet) : Bool :=
  (1 ≤ s.reps) && (0 ≤ s.weight)
    && s.rest_sec.all (fun r => 0 ≤ r)
    && s.rpe.all (fun r => 1 ≤ r && r ≤ 10)

/-- The `ge`/`le` constraints on `Workout`: `duration_min ≥ 0` and
`fatigue ∈ [1,10]` when present, the derived fields `≥ 0` when present,
`likes ≥ 0` when present, and every nested set valid. -/
def validWorkout (w : Workout) : Bool :=
  w.duration_min.all (fun d => 0 ≤ d)
    && w.fatigue.all (fun f => 1 ≤ f && f ≤ 10)
    && w.total_volume.all (fun v => 0 ≤ v)
    && w.total_sets.all (fun n => 0 ≤ n)
    && w.total_reps.all (fun n => 0 ≤ n)
    && w.likes.all (fun n => 0 ≤ n)
    && w.exercises.all (fun ex => ex.sets.all validSet)

/-- The `ge` constraint on `Challenge`: `target ≥ 0`. -/
def validChallenge (c : Challenge) : Bool := 0 ≤ c.target

/-! ## Request handlers (src/main.py) -/

/-- `class CreateUserRequest(BaseModel)` from src/main.py. -/
structure CreateUserRequest where
  username : String
  full_name : Option String := none
  city : Option String := none
deriving DecidableEq

/-- The `User` record built by `create_user`:
`User(username=..., full_name=..., city=...)`, all other fields at their
schema defaults. -/
def mkUser (p : CreateUserRequest) : User :=
  { username := p.username, full_name := p.full_name, city := p.city }

/-- `create_user` (POST /api/users) from src/main.py.  The duplicate check
`db["user"].find_one({"username": payload.username})` is modelled from the
spec as a scan of the user collection.  On conflict the 400 error is
raised and the store is untouched; otherwise the record is inserted via
`create_document` (modelled from the spec: append with the next
storage-assigned identifier). -/
def create_user (payload : CreateUserRequest) (s : DB) :
    Except HErr (Nat × String) × DB :=
  match s.users.find? (fun e => e.2.username == payload.username) with
  | some _ => (Except.error ⟨400, "Username already exists"⟩, s)
  | none =>
      let user := mkUser payload
      (Except.ok (s.nextId, user.username),
       { s with users := s.users ++ [(s.nextId, user)], nextId := s.nextId + 1 })

/-- `list_users` (GET /api/users) from src/main.py.  Modelled from the
spec: `get_documents("user", {}, limit)` returns up to `limit` records in
storage order, with `limit = 0` yielding the empty list; identifiers are
stringified. -/
def list_users (limit : Nat) (s : DB) : List (String × User) :=
  (s.users.take limit).map (fun e => (idString e.1, e.2))

/-- `create_workout` (POST /api/workouts) from src/main.py.  The pydantic
validation of the `Workout` payload runs before the handler body: an
out-of-range field yields a 422 rejection with no metrics computation and
no storage call.  Otherwise the handler computes the metrics, inserts the
record and answers with the assigned identifier and computed
total_volume. -/
def create_workout (now : Int) (payload : Workout) (s : DB) :
    Except HErr (Nat × Option ℚ) × DB :=
  if validWorkout payload then
    let workout := compute_workout_metrics now payload
    (Except.ok (s.nextId, workout.total_volume),
     { s with workouts := s.workouts ++ [(s.nextId, workout)], nextId := s.nextId + 1 })
  else (Except.error ⟨422, "validation error"⟩, s)

/-- Sort key for the feed: the stored workout's date
(`.sort("date", -1)`). -/
def dateKey (w : Workout) : Int := w.date.getD 0

/-- The descending-date order used by the feed sort. -/
def feedRel (a b : Nat × Workout) : Prop := dateKey b.2 ≤ dateKey a.2

instance : DecidableRel feedRel :=
  fun a b => inferInstanceAs (Decidable (dateKey b.2 ≤ dateKey a.2))

instance : IsTotal (Nat × Workout) feedRel :=
  ⟨fun a b => le_total (dateKey b.2) (dateKey a.2)⟩

instance : IsTrans (Nat × Workout) feedRel :=
  ⟨fun _ _ _ h1 h2 => le_trans h2 h1⟩

/-- `get_feed` (GET /api/workouts) from src/main.py.  The query filter is
`{"user_id": user} if user else {}`: Python truthiness, so both a missing
filter and an empty-string filter select everything.  Sorting by date
descending and `limit` are the store's (modelled from the spec:
`limit = 0` yields the empty list).  Identifiers are stringified. -/
def get_feed (user : Option String) (limit : Nat) (s : DB) :
    List (String × Workout) :=
  let matching :=
    match user with
    | some u => if u = "" then s.workouts
                else s.workouts.filter (fun e => e.2.user_id == u)
    | none => s.workouts
  ((matching.insertionSort feedRel).take limit).map (fun e => (idString e.1, e.2))

/-- The `$inc {"likes": 1}` update applied to a workout document. -/
def likeInc (w : Workout) : Workout :=
  { w with likes := some (w.likes.getD 0 + 1) }

/-- Increment the likes of the first document carrying the identifier
(`find_one_and_update` touches a single document). -/
def updateFirst (oid : Nat) : List (Nat × Workout) → List (Nat × Workout)
  | [] => []
  | e :: rest =>
      if e.1 = oid then (e.1, likeInc e.2) :: rest
      else e :: updateFirst oid rest

/-- `like_workout` (POST /api/workouts/{workout_id}/like) from
src/main.py.  Modelled from the spec (§4.3, §9): a single atomic
increment-and-fetch keyed on the parsed identifier; a malformed or unknown
identifier matches nothing and yields the 404
`HTTPException(404, "Workout not found")` with the store untouched. -/
def like_workout (workout_id : String) (s : DB) :
    Except HErr (String × Workout) × DB :=
  match parseId workout_id with
  | none => (Except.error ⟨404, "Workout not found"⟩, s)
  | some oid =>
      match s.workouts.find? (fun e => e.1 == oid) with
      | none => (Except.error ⟨404, "Workout not found"⟩, s)
      | some e =>
          (Except.ok (idString e.1, likeInc e.2),
           { s with workouts := updateFirst oid s.workouts })

/-- `create_challenge` (POST /api/challenges) from src/main.py: pydantic
validation (`target ≥ 0`) then a single insert. -/
def create_challenge (payload : Challenge) (s : DB) : Except HErr Nat × DB :=
  if validChallenge payload then
    (Except.ok s.nextId,
     { s with challenges := s.challenges ++ [(s.nextId, payload)], nextId := s.nextId + 1 })
  else (Except.error ⟨422, "validation error"⟩, s)

/-- `list_challenges` (GET /api/challenges) from src/main.py.  Modelled
from the spec exactly like `list_users`. -/
def list_challenges (limit : Nat) (s : DB) : List (String × Challenge) :=
  (s.challenges.take limit).map (fun e => (idString e.1, e.2))

/-! ## Characterisation of the metrics fold -/

lemma weight_or_zero (s : ExerciseSet) :
    (if s.weight = 0 then (0 : ℚ) else s.weight) = s.weight := by
  split <;> simp_all

lemma volumeSum_cons (s : ExerciseSet) (l : List ExerciseSet) :
    volumeSum (s :: l) = (s.reps : ℚ) * s.weight + volumeSum l := by
  simp [volumeSum]

lemma repsSum_cons (s : ExerciseSet) (l : List ExerciseSet) :
    repsSum (s :: l) = s.reps + repsSum l := by
  simp [repsSum]

lemma volumeSum_append (l1 l2 : List ExerciseSet) :
    volumeSum (l1 ++ l2) = volumeSum l1 + volumeSum l2 := by
  simp [volumeSum]

lemma repsSum_append (l1 l2 : List ExerciseSet) :
    repsSum (l1 ++ l2) = repsSum l1 + repsSum l2 := by
  simp [repsSum]

lemma foldl_metricsStep (l : List ExerciseSet) (a : ℚ × Int × Int) :
    l.foldl metricsStep a
      = (a.1 + volumeSum l, a.2.1 + l.length, a.2.2 + repsSum l) := by
  induction l generalizing a with
  | nil => simp [volumeSum, repsSum]
  | cons s t ih =>
      rw [List.foldl_cons, ih, volumeSum_cons, repsSum_cons]
      simp only [metricsStep, weight_or_zero, List.length_cons, Prod.mk.injEq]
      refine ⟨by ring, by push_cast; omega, by ring⟩

lemma foldl_exercises (exs : List WorkoutExercise) (a : ℚ × Int × Int) :
    exs.foldl (fun a ex => ex.sets.foldl metricsStep a) a
      = (a.1 + volumeSum (exs.flatMap (fun ex => ex.sets)),
         a.2.1 + (exs.flatMap (fun ex => ex.sets)).length,
         a.2.2 + repsSum (exs.flatMap (fun ex => ex.sets))) := by
  induction exs generalizing a with
  | nil => simp [volumeSum, repsSum]
  | cons ex t ih =>
      rw [List.foldl_cons, ih, foldl_metricsStep]
      simp only [List.flatMap_cons, volumeSum_append, repsSum_append,
        List.length_append, Prod.mk.injEq]
      refine ⟨by ring, by push_cast; omega, by ring⟩

/-- The record form of `compute_workout_metrics`: the three derived fields
equal the declarative aggregates over all sets, date and likes are
defaulted, everything else is untouched. -/
lemma compute_workout_metrics_eq (now : Int) (w : Workout) :
    compute_workout_metrics now w
      = { w with
          total_volume := some (round2 (volumeSum (setsOf w)))
          total_sets := some ((setsOf w).length : Int)
          total_reps := some (repsSum (setsOf w))
          date := some (w.date.getD now)
          likes := some (w.likes.getD 0) } := by
  unfold compute_workout_metrics setsOf
  rw [foldl_exercises]
  simp

/-- The spec §8 example workout: user "alice", one Bench exercise with two
sets of 5 reps at weight 100. -/
def benchSets : List ExerciseSet :=
  [{ reps := 5, weight := 100 }, { reps := 5, weight := 100 }]

/-- The spec §8 example workout, continued: one Bench exercise. -/
def wBench : Workout :=
  { user_id := "alice", exercises := [{ name := "Bench", sets := benchSets }] }

lemma roundHalfEven_intCast (n : Int) : roundHalfEven (n : ℚ) = n := by
  simp [roundHalfEven]

lemma round2_zero : round2 0 = 0 := by
  have h0 : roundHalfEven 0 = 0 := by
    have h := roundHalfEven_intCast 0
    simpa using h
  simp [round2, h0]

lemma length_le_sum_of_one_le (l : List Int) (h : ∀ x ∈ l, 1 ≤ x) :
    (l.length : Int) ≤ l.sum ∧ (l.sum = l.length ↔ ∀ x ∈ l, x = 1) := by
  induction l with
  | nil => simp
  | cons x t ih =>
      have hx : 1 ≤ x := h x (List.mem_cons_self _ _)
      obtain ⟨h1, h2⟩ := ih (fun y hy => h y (List.mem_cons_of_mem _ hy))
      simp only [List.sum_cons, List.length_cons, List.mem_cons] at *
      constructor
      · push_cast
        omega
      · constructor
        · intro heq y hy
          have hx1 : x = 1 ∧ t.sum = (t.length : Int) := by push_cast at heq ⊢; omega
          rcases hy with rfl | hy
          · exact hx1.1
          · exact (h2.mp hx1.2) y hy
        · intro hall
          have hx1 : x = 1 := hall x (Or.inl rfl)
          have hts : t.sum = (t.length : Int) := h2.mpr (fun y hy => hall y (Or.inr hy))
          push_cast
          omega

/-- C1: the metrics computation returns a workout whose `total_sets` is
the count of all sets across all exercises, whose `total_reps` is the sum
of the reps of all sets, and whose `total_volume` is
`round2` — applied once — of the accumulated sum of `reps * weight`; with
zero exercises or zero sets all three totals are `0`, and date/likes are
defaulted exactly when absent. -/
theorem compute_workout_metrics_spec (now : Int) (w : Workout) :
    (compute_workout_metrics now w).total_sets = some ((setsOf w).length : Int) ∧
    (compute_workout_metrics now w).total_reps = some (repsSum (setsOf w)) ∧
    (compute_workout_metrics now w).total_volume
        = some (round2 (volumeSum (setsOf w))) ∧
    (setsOf w = [] →
      (compute_workout_metrics now w).total_sets = some 0 ∧
      (compute_workout_metrics now w).total_reps = some 0 ∧
      (compute_workout_metrics now w).total_volume = some 0) ∧
    (w.date = none → (compute_workout_metrics now w).date = some now) ∧
    (∀ d, w.date = some d → (compute_workout_metrics now w).date = some d) ∧
    (w.likes = none → (compute_workout_metrics now w).likes = some 0) := by
  rw [compute_workout_metrics_eq]
  refine ⟨rfl, rfl, rfl, ?_, ?_, ?_, ?_⟩
  · intro hz
    rw [hz]
    exact ⟨rfl, rfl, by simp [volumeSum, repsSum, round2_zero]⟩
  · intro hd
    simp [hd]
  · intro d hd
    simp [hd]
  · intro hl
    simp [hl]

theorem compute_workout_metrics_spec_witness :
    (compute_workout_metrics 7 { user_id := "alice", likes := none }).total_sets
        = some 0 ∧
    (compute_workout_metrics 7 { user_id := "alice", likes := none }).total_reps
        = some 0 ∧
    (compute_workout_metrics 7 { user_id := "alice", likes := none }).total_volume
        = some 0 ∧
    (compute_workout_metrics 7 { user_id := "alice", likes := none }).date
        = some 7 ∧
    (compute_workout_metrics 7 { user_id := "alice", likes := none }).likes
        = some 0 := by
  have h := compute_workout_metrics_spec 7 { user_id := "alice", likes := none }
  exact ⟨(h.2.2.2.1 rfl).1, (h.2.2.2.1 rfl).2.1, (h.2.2.2.1 rfl).2.2,
    h.2.2.2.2.1 rfl, h.2.2.2.2.2.2 rfl⟩

/-- C8: metrics computation is idempotent on a workout with a fixed
non-null date: computing twice yields the same `total_volume`,
`total_sets` and `total_reps` as computing once. -/
theorem compute_workout_metrics_idempotent (n1 n2 : Int) (w : Workout) (d : Int)
    (h : w.date = some d) :
    (compute_workout_metrics n2 (compute_workout_metrics n1 w)).total_volume
        = (compute_workout_metrics n1 w).total_volume ∧
    (compute_workout_metrics n2 (compute_workout_metrics n1 w)).total_sets
        = (compute_workout_metrics n1 w).total_sets ∧
    (compute_workout_metrics n2 (compute_workout_metrics n1 w)).total_reps
        = (compute_workout_metrics n1 w).total_reps := by
  rw [compute_workout_metrics_eq n1 w, compute_workout_metrics_eq n2]
  exact ⟨rfl, rfl, rfl⟩

theorem compute_workout_metrics_idempotent_witness :
    ({ user_id := "bob", date := some 3 } : Workout).date = some 3 ∧
    (compute_workout_metrics 9 (compute_workout_metrics 4
        { user_id := "bob", date := some 3 })).total_volume
      = (compute_workout_metrics 4
        ({ user_id := "bob", date := some 3 } : Workout)).total_volume :=
  ⟨rfl, (compute_workout_metrics_idempotent 4 9
    { user_id := "bob", date := some 3 } 3 rfl).1⟩

/-- C10: when every set has `reps ≥ 1` (as schema validation guarantees),
the computed totals satisfy `total_sets ≤ total_reps`, with equality
exactly when every set has `reps = 1`. -/
theorem total_reps_ge_total_sets (now : Int) (w : Workout)
    (h : ∀ s ∈ setsOf w, 1 ≤ s.reps) :
    ∃ ts tr, (compute_workout_metrics now w).total_sets = some ts ∧
      (compute_workout_metrics now w).total_reps = some tr ∧
      ts ≤ tr ∧ (tr = ts ↔ ∀ s ∈ setsOf w, s.reps = 1) := by
  rw [compute_workout_metrics_eq]
  refine ⟨_, _, rfl, rfl, ?_, ?_⟩
  · have := (length_le_sum_of_one_le ((setsOf w).map (fun s => s.reps))
      (by intro x hx
          obtain ⟨s, hs, rfl⟩ := List.mem_map.mp hx
          exact h s hs)).1
    simpa [repsSum] using this
  · have := (length_le_sum_of_one_le ((setsOf w).map (fun s => s.reps))
      (by intro x hx
          obtain ⟨s, hs, rfl⟩ := List.mem_map.mp hx
          exact h s hs)).2
    simp only [List.length_map] at this
    rw [show repsSum (setsOf w) = ((setsOf w).map (fun s => s.reps)).sum from rfl,
      this]
    constructor
    · intro hall s hs
      exact hall s.reps (List.mem_map.mpr ⟨s, hs, rfl⟩)
    · intro hall x hx
      obtain ⟨s, hs, rfl⟩ := List.mem_map.mp hx
      exact hall s hs

theorem total_reps_ge_total_sets_witness :
    (∀ s ∈ setsOf wBench, 1 ≤ s.reps) ∧
    ∃ ts tr, (compute_workout_metrics 0 wBench).total_sets = some ts ∧
      (compute_workout_metrics 0 wBench).total_reps = some tr ∧
      ts ≤ tr ∧ (tr = ts ↔ ∀ s ∈ setsOf wBench, s.reps = 1) :=
  ⟨by decide, total_reps_ge_total_sets 0 wBench (by decide)⟩

/-! ## User creation (C3) -/

lemma find?_username_eq_none (uname : String) (l : List (Nat × User)) :
    l.find? (fun e => e.2.username == uname) = none
      ↔ ∀ e ∈ l, e.2.username ≠ uname := by
  rw [List.find?_eq_none]
  simp

/-- C3: creating a user whose username already exists fails with the 400
conflict error and inserts nothing; otherwise a user with defaults for the
unspecified fields is inserted and the assigned identifier and username
are returned; two sequential creations of the same username see the first
succeed and the second fail with the conflict error. -/
theorem create_user_spec (p : CreateUserRequest) (s : DB) :
    ((∃ e ∈ s.users, e.2.username = p.username) →
      create_user p s = (Except.error ⟨400, "Username already exists"⟩, s)) ∧
    ((∀ e ∈ s.users, e.2.username ≠ p.username) →
      create_user p s
        = (Except.ok (s.nextId, p.username),
           { s with users := s.users ++ [(s.nextId, mkUser p)],
                    nextId := s.nextId + 1 })
      ∧ (mkUser p).username = p.username ∧ (mkUser p).bio = none
      ∧ (mkUser p).avatar_url = none ∧ (mkUser p).level = some "beginner"
      ∧ (mkUser p).goals = []) ∧
    ((∀ e ∈ s.users, e.2.username ≠ p.username) →
      (create_user p ((create_user p s).2)).1
        = Except.error ⟨400, "Username already exists"⟩) := by
  refine ⟨?_, ?_, ?_⟩
  · intro hex
    obtain ⟨e, he, heq⟩ := hex
    unfold create_user
    cases hf : s.users.find? (fun e => e.2.username == p.username) with
    | none =>
        exact absurd heq ((find?_username_eq_none p.username s.users).mp hf e he)
    | some e' => rfl
  · intro hnone
    have hf : s.users.find? (fun e => e.2.username == p.username) = none :=
      (find?_username_eq_none p.username s.users).mpr hnone
    refine ⟨?_, rfl, rfl, rfl, rfl, rfl⟩
    unfold create_user
    rw [hf]
    rfl
  · intro hnone
    have hf : s.users.find? (fun e => e.2.username == p.username) = none :=
      (find?_username_eq_none p.username s.users).mpr hnone
    have hstep : (create_user p s).2
        = { s with users := s.users ++ [(s.nextId, mkUser p)],
                   nextId := s.nextId + 1 } := by
      unfold create_user
      rw [hf]
    rw [hstep]
    unfold create_user
    cases hf2 : (s.users ++ [(s.nextId, mkUser p)]).find?
        (fun e => e.2.username == p.username) with
    | none =>
        have := (find?_username_eq_none p.username _).mp hf2
          (s.nextId, mkUser p) (by simp)
        simp [mkUser] at this
    | some e' => rfl

theorem create_user_spec_witness :
    (∀ e ∈ emptyDB.users, e.2.username ≠ "zoe") ∧
    (create_user ⟨"zoe", none, none⟩
        ((create_user ⟨"zoe", none, none⟩ emptyDB).2)).1
      = Except.error ⟨400, "Username already exists"⟩ := by
  have hempty : ∀ e ∈ emptyDB.users, e.2.username ≠ "zoe" := by
    intro e he
    simp [emptyDB] at he
  exact ⟨hempty, (create_user_spec ⟨"zoe", none, none⟩ emptyDB).2.2 hempty⟩

/-! ## Limit zero (C9) -/

/-- C9: every list endpoint answers `limit = 0` with the empty list,
whatever is stored. -/
theorem limit_zero_empty_lists (user : Option String) (s : DB) :
    list_users 0 s = [] ∧ get_feed user 0 s = [] ∧ list_challenges 0 s = [] := by
  refine ⟨?_, ?_, ?_⟩ <;> simp [list_users, get_feed, list_challenges]

/-! ## Validation rejection (C5) and server-side recomputation (C6) -/

lemma validSet_true (st : ExerciseSet) (hs : validSet st = true) :
    1 ≤ st.reps ∧ 0 ≤ st.weight ∧ (∀ r, st.rest_sec = some r → 0 ≤ r) ∧
    (∀ r, st.rpe = some r → 1 ≤ r ∧ r ≤ 10) := by
  simp only [validSet, Bool.and_eq_true] at hs
  obtain ⟨⟨⟨h1, h2⟩, h3⟩, h4⟩ := hs
  refine ⟨by simpa using h1, by simpa using h2, ?_, ?_⟩
  · intro r hr
    rw [hr] at h3
    simpa using h3
  · intro r hr
    rw [hr] at h4
    simpa using h4

lemma validWorkout_true (w : Workout) (hw : validWorkout w = true) :
    (∀ d, w.duration_min = some d → 0 ≤ d) ∧
    (∀ f, w.fatigue = some f → 1 ≤ f ∧ f ≤ 10) ∧
    (∀ st ∈ setsOf w, validSet st = true) := by
  simp only [validWorkout, Bool.and_eq_true] at hw
  obtain ⟨⟨⟨⟨⟨⟨hdur, hfat⟩, _⟩, _⟩, _⟩, _⟩, hall⟩ := hw
  refine ⟨?_, ?_, ?_⟩
  · intro d hd
    rw [hd] at hdur
    simpa using hdur
  · intro f hf
    rw [hf] at hfat
    simpa using hfat
  · intro st hst
    rw [setsOf, List.mem_flatMap] at hst
    obtain ⟨ex, hex, hst⟩ := hst
    have h1 := (List.all_eq_true.mp hall) ex hex
    exact (List.all_eq_true.mp (by simpa using h1)) st hst

/-- C5: a create-workout payload violating any field constraint (a set
with `reps < 1`, `weight < 0`, `rest_sec < 0` or out-of-range `rpe`, or a
workout with `duration_min < 0` or out-of-range `fatigue`) is rejected
with the 422 validation error before metrics computation and before any
storage call: the store is returned unchanged and nothing is inserted. -/
theorem create_workout_validation (now : Int) (p : Workout) (s : DB)
    (h : (∃ st ∈ setsOf p, st.reps < 1 ∨ st.weight < 0 ∨
            (∃ r, st.rest_sec = some r ∧ r < 0) ∨
            (∃ r, st.rpe = some r ∧ (r < 1 ∨ 10 < r))) ∨
         (∃ d, p.duration_min = some d ∧ d < 0) ∨
         (∃ f, p.fatigue = some f ∧ (f < 1 ∨ 10 < f))) :
    create_workout now p s = (Except.error ⟨422, "validation error"⟩, s) := by
  have hv : validWorkout p = false := by
    rcases Bool.eq_false_or_eq_true (validWorkout p) with htrue | hfalse
    · exfalso
      obtain ⟨hdur, hfat, hsets⟩ := validWorkout_true p htrue
      rcases h with ⟨st, hst, hbad⟩ | ⟨d, hd, hdlt⟩ | ⟨f, hf, hfbad⟩
      · obtain ⟨hr, hwt, hrest, hrpe⟩ := validSet_true st (hsets st hst)
        rcases hbad with hb | hb | ⟨r, hr2, hb⟩ | ⟨r, hr2, hb⟩
        · omega
        · linarith
        · have := hrest r hr2
          omega
        · have := hrpe r hr2
          rcases hb with hb | hb <;> linarith
      · have := hdur d hd
        omega
      · have := hfat f hf
        omega
    · exact hfalse
  simp [create_workout, hv]

/-- A payload with an invalid set: zero reps. -/
def wBadReps : Workout :=
  { user_id := "x", exercises := [{ name := "E", sets := [{ reps := 0 }] }] }

theorem create_workout_validation_witness :
    ((∃ st ∈ setsOf wBadReps, st.reps < 1 ∨ st.weight < 0 ∨
        (∃ r, st.rest_sec = some r ∧ r < 0) ∨
        (∃ r, st.rpe = some r ∧ (r < 1 ∨ 10 < r))) ∨
      (∃ d, wBadReps.duration_min = some d ∧ d < 0) ∨
      (∃ f, wBadReps.fatigue = some f ∧ (f < 1 ∨ 10 < f))) ∧
    create_workout 0 wBadReps emptyDB
      = (Except.error ⟨422, "validation error"⟩, emptyDB) := by
  have hbad : (∃ st ∈ setsOf wBadReps, st.reps < 1 ∨ st.weight < 0 ∨
      (∃ r, st.rest_sec = some r ∧ r < 0) ∨
      (∃ r, st.rpe = some r ∧ (r < 1 ∨ 10 < r))) ∨
      (∃ d, wBadReps.duration_min = some d ∧ d < 0) ∨
      (∃ f, wBadReps.fatigue = some f ∧ (f < 1 ∨ 10 < f)) :=
    Or.inl ⟨{ reps := 0 }, by simp [setsOf, wBadReps], Or.inl (by decide)⟩
  exact ⟨hbad, create_workout_validation 0 wBadReps emptyDB hbad⟩

/-- C6 (amended): for two create-workout payloads that agree on every
field except the client-supplied `total_volume`, `total_sets` and
`total_reps`, and that both pass schema validation, workout creation is
indistinguishable: same response (same identifier and computed
`total_volume`) and same stored state — the derived totals are recomputed
server-side from the exercises and never taken from the client. -/
theorem create_workout_ignores_client_derived (now : Int) (s : DB)
    (p1 p2 : Workout)
    (hu : p2.user_id = p1.user_id) (hn : p2.notes = p1.notes)
    (hdm : p2.duration_min = p1.duration_min) (hf : p2.fatigue = p1.fatigue)
    (hex : p2.exercises = p1.exercises) (hd : p2.date = p1.date)
    (hl : p2.likes = p1.likes) (hm : p2.media_url = p1.media_url)
    (h1 : validWorkout p1 = true) (h2 : validWorkout p2 = true) :
    create_workout now p1 s = create_workout now p2 s := by
  have hsets : setsOf p2 = setsOf p1 := by
    rw [setsOf, setsOf, hex]
  have hc : compute_workout_metrics now p2 = compute_workout_metrics now p1 := by
    rw [compute_workout_metrics_eq, compute_workout_metrics_eq, hsets, hu, hn,
      hdm, hf, hex, hd, hl, hm]
  simp only [create_workout, h1, h2, if_true, hc]

/-- A payload carrying a client-supplied `total_sets`. -/
def pDerivedA : Workout := { user_id := "u", total_sets := some 99 }

/-- The same payload without the client-supplied derived field. -/
def pDerivedB : Workout := { user_id := "u" }

theorem create_workout_ignores_client_derived_witness :
    (validWorkout pDerivedA = true ∧ validWorkout pDerivedB = true ∧
      pDerivedA.total_sets ≠ pDerivedB.total_sets) ∧
    create_workout 5 pDerivedA emptyDB = create_workout 5 pDerivedB emptyDB :=
  ⟨⟨by decide, by decide, by decide⟩,
   create_workout_ignores_client_derived 5 emptyDB pDerivedA pDerivedB
     rfl rfl rfl rfl rfl rfl rfl rfl (by decide) (by decide)⟩

/-- A payload whose only anomaly is a client-supplied negative
`total_volume`. -/
def pNegVolume : Workout := { user_id := "u", total_volume := some (-1) }

/-- C6 (counterexample to the claim as stated): two payloads that differ
only in the client-supplied `total_volume` do not produce identical
outcomes — the schema bound `total_volume ≥ 0` rejects one of them with a
422 before insertion while the other is inserted, so client input to the
derived fields does influence the result. -/
theorem create_workout_derived_cex :
    pNegVolume.user_id = pDerivedB.user_id ∧
    pNegVolume.notes = pDerivedB.notes ∧
    pNegVolume.duration_min = pDerivedB.duration_min ∧
    pNegVolume.fatigue = pDerivedB.fatigue ∧
    pNegVolume.exercises = pDerivedB.exercises ∧
    pNegVolume.date = pDerivedB.date ∧
    pNegVolume.likes = pDerivedB.likes ∧
    pNegVolume.media_url = pDerivedB.media_url ∧
    pNegVolume.total_sets = pDerivedB.total_sets ∧
    pNegVolume.total_reps = pDerivedB.total_reps ∧
    (create_workout 0 pNegVolume emptyDB).1
      = Except.error ⟨422, "validation error"⟩ ∧
    (create_workout 0 pNegVolume emptyDB).2.workouts.length = 0 ∧
    (create_workout 0 pDerivedB emptyDB).2.workouts.length = 1 := by
  have hv : validWorkout pNegVolume = false := by decide
  have hv2 : validWorkout pDerivedB = true := by decide
  refine ⟨rfl, rfl, rfl, rfl, rfl, rfl, rfl, rfl, rfl, rfl, ?_, ?_, ?_⟩
  · simp [create_workout, hv]
  · simp [create_workout, hv, emptyDB]
  · simp [create_workout, hv2, emptyDB]

/-! ## Like endpoint (C2, C7) -/

/-- A store holding exactly one workout, under identifier 0. -/
def sOne : DB := { workouts := [(0, wBench)], nextId := 1 }

/-- C2: a like request whose identifier matches no stored workout —
including malformed identifiers that parse to no storage identifier at
all — fails with the 404 error and leaves the store unchanged. -/
theorem like_workout_not_found (wid : String) (s : DB)
    (h : ∀ oid, parseId wid = some oid →
      s.workouts.find? (fun e => e.1 == oid) = none) :
    like_workout wid s = (Except.error ⟨404, "Workout not found"⟩, s) := by
  cases hp : parseId wid with
  | none => simp only [like_workout, hp]
  | some oid => simp only [like_workout, hp, h oid hp]

theorem like_workout_not_found_witness :
    (∀ oid, parseId "abc" = some oid →
      sOne.workouts.find? (fun e => e.1 == oid) = none) ∧
    like_workout "abc" sOne = (Except.error ⟨404, "Workout not found"⟩, sOne) := by
  have h : ∀ oid, parseId "abc" = some oid →
      sOne.workouts.find? (fun e => e.1 == oid) = none := by
    intro oid hoid
    rw [show parseId "abc" = none from by decide] at hoid
    exact Option.noConfusion hoid
  exact ⟨h, like_workout_not_found "abc" sOne h⟩

lemma mem_updateFirst_of_ne (oid : Nat) (l : List (Nat × Workout)) :
    ∀ e ∈ l, e.1 ≠ oid → e ∈ updateFirst oid l := by
  induction l with
  | nil => simp [updateFirst]
  | cons x t ih =>
      intro e he hne
      simp only [updateFirst]
      by_cases hx : x.1 = oid
      · rw [if_pos hx]
        rcases List.mem_cons.mp he with rfl | he2
        · exact absurd hx hne
        · exact List.mem_cons_of_mem _ he2
      · rw [if_neg hx]
        rcases List.mem_cons.mp he with rfl | he2
        · exact List.mem_cons_self _ _
        · exact List.mem_cons_of_mem _ (ih e he2 hne)

lemma create_user_preserves (q : CreateUserRequest) (s2 : DB) :
    (create_user q s2).2.workouts = s2.workouts ∧
    (create_user q s2).2.challenges = s2.challenges ∧
    ∀ e ∈ s2.users, e ∈ (create_user q s2).2.users := by
  unfold create_user
  cases hq : s2.users.find? (fun e => e.2.username == q.username) with
  | some e0 => exact ⟨rfl, rfl, fun e he => he⟩
  | none => exact ⟨rfl, rfl, fun e he => List.mem_append_left _ he⟩

lemma create_workout_preserves (n : Int) (q : Workout) (s2 : DB) :
    (create_workout n q s2).2.users = s2.users ∧
    (create_workout n q s2).2.challenges = s2.challenges ∧
    ∀ e ∈ s2.workouts, e ∈ (create_workout n q s2).2.workouts := by
  unfold create_workout
  by_cases hv : validWorkout q = true
  · rw [if_pos hv]
    exact ⟨rfl, rfl, fun e he => List.mem_append_left _ he⟩
  · rw [if_neg hv]
    exact ⟨rfl, rfl, fun e he => he⟩

lemma create_challenge_preserves (q : Challenge) (s2 : DB) :
    (create_challenge q s2).2.users = s2.users ∧
    (create_challenge q s2).2.workouts = s2.workouts ∧
    ∀ e ∈ s2.challenges, e ∈ (create_challenge q s2).2.challenges := by
  unfold create_challenge
  by_cases hv : validChallenge q = true
  · rw [if_pos hv]
    exact ⟨rfl, rfl, fun e he => List.mem_append_left _ he⟩
  · rw [if_neg hv]
    exact ⟨rfl, rfl, fun e he => he⟩

/-- C7: a like request that matches a stored workout increments exactly
that workout's likes counter by 1 (every other field of the record is
unchanged, field by field), returns the full updated record with its
identifier stringified, leaves the user and challenge collections and all
workout records with a different identifier untouched; and no operation
other than like mutates a stored record — each create endpoint only
appends, preserving every existing record of every collection. -/
theorem like_workout_spec (wid : String) (oid : Nat) (w : Workout) (s : DB)
    (hp : parseId wid = some oid)
    (hf : s.workouts.find? (fun e => e.1 == oid) = some (oid, w)) :
    like_workout wid s
      = (Except.ok (idString oid, likeInc w),
         { s with workouts := updateFirst oid s.workouts }) ∧
    (likeInc w).likes = some (w.likes.getD 0 + 1) ∧
    (likeInc w).user_id = w.user_id ∧ (likeInc w).notes = w.notes ∧
    (likeInc w).duration_min = w.duration_min ∧
    (likeInc w).fatigue = w.fatigue ∧ (likeInc w).exercises = w.exercises ∧
    (likeInc w).total_volume = w.total_volume ∧
    (likeInc w).total_sets = w.total_sets ∧
    (likeInc w).total_reps = w.total_reps ∧ (likeInc w).date = w.date ∧
    (likeInc w).media_url = w.media_url ∧
    (like_workout wid s).2.users = s.users ∧
    (like_workout wid s).2.challenges = s.challenges ∧
    (∀ e ∈ s.workouts, e.1 ≠ oid → e ∈ (like_workout wid s).2.workouts) ∧
    (∀ q s2, (create_user q s2).2.workouts = s2.workouts ∧
      (create_user q s2).2.challenges = s2.challenges ∧
      ∀ e ∈ s2.users, e ∈ (create_user q s2).2.users) ∧
    (∀ n q s2, (create_workout n q s2).2.users = s2.users ∧
      (create_workout n q s2).2.challenges = s2.challenges ∧
      ∀ e ∈ s2.workouts, e ∈ (create_workout n q s2).2.workouts) ∧
    (∀ q s2, (create_challenge q s2).2.users = s2.users ∧
      (create_challenge q s2).2.workouts = s2.workouts ∧
      ∀ e ∈ s2.challenges, e ∈ (create_challenge q s2).2.challenges) := by
  have hlike : like_workout wid s
      = (Except.ok (idString oid, likeInc w),
         { s with workouts := updateFirst oid s.workouts }) := by
    simp only [like_workout, hp, hf]
  refine ⟨hlike, rfl, rfl, rfl, rfl, rfl, rfl, rfl, rfl, rfl, rfl, rfl,
    ?_, ?_, ?_, create_user_preserves, create_workout_preserves,
    create_challenge_preserves⟩
  · rw [hlike]
  · rw [hlike]
  · intro e he hne
    rw [hlike]
    exact mem_updateFirst_of_ne oid s.workouts e he hne

theorem like_workout_spec_witness :
    parseId "0" = some 0 ∧
    sOne.workouts.find? (fun e => e.1 == 0) = some (0, wBench) ∧
    like_workout "0" sOne
      = (Except.ok (idString 0, likeInc wBench),
         { sOne with workouts := updateFirst 0 sOne.workouts }) := by
  have hp : parseId "0" = some 0 := by decide
  have hf : sOne.workouts.find? (fun e => e.1 == 0) = some (0, wBench) := by
    decide
  exact ⟨hp, hf, (like_workout_spec "0" 0 wBench sOne hp hf).1⟩

/-! ## Feed (C4) -/

lemma feed_pipeline_sorted (ml : List (Nat × Workout)) (limit : Nat) :
    List.Pairwise (fun (a b : String × Workout) => dateKey b.2 ≤ dateKey a.2)
      (((ml.insertionSort feedRel).take limit).map
        (fun e => (idString e.1, e.2))) := by
  have hs : List.Pairwise feedRel (ml.insertionSort feedRel) :=
    List.sorted_insertionSort feedRel ml
  have ht : List.Pairwise feedRel ((ml.insertionSort feedRel).take limit) :=
    hs.sublist (List.take_sublist _ _)
  rw [List.pairwise_map]
  exact ht

lemma feed_pipeline_mem (ml : List (Nat × Workout)) (limit : Nat)
    (e : String × Workout)
    (he : e ∈ ((ml.insertionSort feedRel).take limit).map
      (fun e => (idString e.1, e.2))) :
    ∃ x ∈ ml, e = (idString x.1, x.2) := by
  obtain ⟨x, hx, rfl⟩ := List.mem_map.mp he
  exact ⟨x, (List.mem_insertionSort feedRel).mp (List.mem_of_mem_take hx), rfl⟩

/-- C4 (amended): the feed returns workouts sorted by date descending,
restricted to those whose `user_id` equals the user filter whenever a
NON-EMPTY filter is supplied (an empty-string filter is treated like an
absent one by the handler's truthiness test), contains at most `limit`
records, and renders every identifier as a string, every returned record
being a stored one. -/
theorem get_feed_spec (user : Option String) (limit : Nat) (s : DB)
    (hne : ∀ u, user = some u → u ≠ "") :
    List.Pairwise (fun (a b : String × Workout) => dateKey b.2 ≤ dateKey a.2)
      (get_feed user limit s) ∧
    (∀ u, user = some u → ∀ e ∈ get_feed user limit s, e.2.user_id = u) ∧
    (get_feed user limit s).length ≤ limit ∧
    (∀ e ∈ get_feed user limit s, ∃ x ∈ s.workouts, e = (idString x.1, x.2)) := by
  cases user with
  | none =>
      refine ⟨feed_pipeline_sorted _ _, ?_, ?_, ?_⟩
      · intro u hu
        exact Option.noConfusion hu
      · rw [get_feed, List.length_map]
        exact List.length_take_le _ _
      · intro e he
        exact feed_pipeline_mem _ _ e he
  | some u =>
      have hu : u ≠ "" := hne u rfl
      have hmatch : get_feed (some u) limit s
          = (((s.workouts.filter (fun e => e.2.user_id == u)).insertionSort
                feedRel).take limit).map (fun e => (idString e.1, e.2)) := by
        simp only [get_feed, if_neg hu]
      rw [hmatch]
      refine ⟨feed_pipeline_sorted _ _, ?_, ?_, ?_⟩
      · intro u' hu' e he
        obtain ⟨x, hx, rfl⟩ := feed_pipeline_mem _ _ e he
        have hf := List.mem_filter.mp hx
        have hxu : x.2.user_id = u := by simpa using hf.2
        rw [hxu]
        exact Option.some.inj hu'
      · rw [List.length_map]
        exact List.length_take_le _ _
      · intro e he
        obtain ⟨x, hx, rfl⟩ := feed_pipeline_mem _ _ e he
        exact ⟨x, (List.mem_filter.mp hx).1, rfl⟩

/-- A workout of user "a" dated 1. -/
def wd1 : Workout := { user_id := "a", date := some 1 }

/-- A workout of user "a" dated 2. -/
def wd2 : Workout := { user_id := "a", date := some 2 }

/-- A workout of user "a" dated 3. -/
def wd3 : Workout := { user_id := "a", date := some 3 }

/-- A store holding the three dated workouts, inserted in date order. -/
def sThree : DB := { workouts := [(0, wd1), (1, wd2), (2, wd3)], nextId := 3 }

theorem get_feed_spec_witness :
    (∀ u, (none : Option String) = some u → u ≠ "") ∧
    List.Pairwise (fun (a b : String × Workout) => dateKey b.2 ≤ dateKey a.2)
      (get_feed none 20 sThree) ∧
    get_feed none 20 sThree
      = [(idString 2, wd3), (idString 1, wd2), (idString 0, wd1)] := by
  have hne : ∀ u, (none : Option String) = some u → u ≠ "" := by
    intro u hu
    exact Option.noConfusion hu
  exact ⟨hne, (get_feed_spec none 20 sThree hne).1, by decide⟩

/-- C4 (counterexample to the claim as stated): supplying the empty
string as user filter is "a user filter supplied", yet the feed applies no
restriction at all — it returns the stored workout of user "alice", whose
`user_id` differs from the supplied filter, because the handler guards the
query with Python truthiness (`if user`), under which the empty string
counts as absent. -/
theorem get_feed_filter_cex :
    get_feed (some "") 20 sOne = [(idString 0, wBench)] ∧
    wBench.user_id ≠ "" := by
  exact ⟨by decide, by decide⟩
